import Mathlib

/-!
# Cloud Gallery — verification of the specification against the source

Shallow embedding of the cloud_gallery repository:

* `src/lib/cloudinary.ts` — the Cloudinary media-store adapter and the
  `GalleryService` class (create / read / update / delete / search /
  sync of gallery images).
* `src/app/api/images/route.ts` — the `GET /images` endpoint.
* the upload endpoint (`POST /images/upload`), the per-id endpoint
  (`GET/PUT/DELETE /images/[id]`) and the sync endpoint, present in the
  repository as unnamed route files.

External collaborators (MongoDB, Cloudinary) are modelled as oracle
parameters: each call's outcome is an explicit input to the embedded
function, and the media-store / record-store side effects an operation
emits are collected in an explicit trace list.
-/

namespace CloudGallery

/-- A media-store or record-store side effect, in the order the service
issues it. -/
inductive Op where
  | mediaUpload (assetId : String)
  | mediaDelete (assetId : String)
  | recordInsert
  | recordDelete (recordId : String)
  deriving DecidableEq, Repr

/-- JavaScript `new Set(xs)` keeps the first occurrence of each element,
in insertion order. -/
def jsDedup {α : Type} [DecidableEq α] : List α → List α
  | [] => []
  | a :: l => a :: (jsDedup l).filter (fun b => b != a)

/-- The result structure of `GalleryService.syncWithCloudinary`
(`types/gallery` `SyncStatus`). -/
structure SyncStatus where
  inSync : Bool
  mongoCount : Nat
  cloudinaryCount : Nat
  discrepancies : List String
  deriving DecidableEq, Repr

/-- Discrepancy message for an id present in MongoDB only
(cloudinary.ts line 452). -/
def dbOnlyMsg (id : String) : String :=
  "Image " ++ id ++ " exists in MongoDB but not in Cloudinary"

/-- Discrepancy message for an id present in Cloudinary only
(cloudinary.ts line 459). -/
def storageOnlyMsg (id : String) : String :=
  "Image " ++ id ++ " exists in Cloudinary but not in MongoDB"

namespace GalleryService

/-- `GalleryService.syncWithCloudinary` (cloudinary.ts lines 435–473).
Inputs are the `cloudinaryId` projection of the MongoDB documents and
the `public_id`s of the bounded Cloudinary listing, as lists in arrival
order; the code turns each into a JS `Set` and walks both sets. -/
def syncWithCloudinary (mongoImages cloudinaryResources : List String) :
    SyncStatus :=
  let mongoCloudinaryIds := jsDedup mongoImages
  let cloudinaryIds := jsDedup cloudinaryResources
  let d1 := (mongoCloudinaryIds.filter
    (fun id => !(cloudinaryIds.contains id))).map dbOnlyMsg
  let d2 := (cloudinaryIds.filter
    (fun id => !(mongoCloudinaryIds.contains id))).map storageOnlyMsg
  let discrepancies := d1 ++ d2
  { inSync := discrepancies.length == 0
    mongoCount := mongoImages.length
    cloudinaryCount := cloudinaryResources.length
    discrepancies := discrepancies }

end GalleryService

/-- Pagination metadata as assembled by `GalleryService.getImages`
(cloudinary.ts lines 202–209) and `GalleryService.searchImages`
(lines 386–393). -/
structure Pagination where
  currentPage : Nat
  totalPages : Nat
  totalItems : Nat
  itemsPerPage : Nat
  hasNextPage : Bool
  hasPrevPage : Bool
  deriving DecidableEq, Repr

/-- `Math.ceil(totalItems / limit)` over exact (idealized) division, as
computed at cloudinary.ts lines 188 and 372. -/
def mathCeilDiv (totalItems limit : Nat) : Nat :=
  (Int.ceil ((totalItems : ℚ) / (limit : ℚ))).toNat

/-- The pagination block both `getImages` and `searchImages` return
(cloudinary.ts lines 183–188 and 202–209; identically 367–372 and
386–393). -/
def buildPagination (page limit totalItems : Nat) : Pagination :=
  let totalPages := mathCeilDiv totalItems limit
  { currentPage := page
    totalPages := totalPages
    totalItems := totalItems
    itemsPerPage := limit
    hasNextPage := decide (page < totalPages)
    hasPrevPage := decide (page > 1) }

/-- Binary file contents (Node `Buffer`). -/
def Buffer : Type := List Nat

/-- A MongoDB gallery image document (`types/gallery`'s `GalleryImage`).
ObjectIds are modelled as their 24-hex-character strings, `Date`s as
natural-number ticks. The underscore-named primary key keeps the source
field name. -/
structure GalleryImage where
  _id : String
  title : String
  description : String
  cloudinaryId : String
  cloudinaryUrl : String
  publicId : String
  format : String
  width : Nat
  height : Nat
  bytes : Nat
  tags : List String
  createdAt : Nat
  updatedAt : Nat
  isPublic : Bool
  deriving DecidableEq, Repr

/-- `ObjectId.isValid` for a string argument: 24 hexadecimal characters. -/
def isValidObjectId (s : String) : Bool :=
  s.length == 24 && s.data.all
    (fun c => c.isDigit || ('a' ≤ c && c ≤ 'f') || ('A' ≤ c && c ≤ 'F'))

/-- The Cloudinary upload response fields the service reads
(`public_id`, `secure_url`, `format`, `width`, `height`, `bytes`). -/
structure CloudinaryUploadResult where
  public_id : String
  secure_url : String
  format : String
  width : Nat
  height : Nat
  bytes : Nat
  deriving DecidableEq, Repr

/-- `types/gallery`'s `CreateImageRequest`: `title` required,
`description`, `tags` and `isPublic` optional. -/
structure CreateImageRequest where
  title : String
  description : Option String
  tags : Option (List String)
  isPublic : Option Bool
  deriving DecidableEq, Repr

/-- `types/gallery`'s `UpdateImageRequest`: every field optional. -/
structure UpdateImageRequest where
  title : Option String
  description : Option String
  tags : Option (List String)
  isPublic : Option Bool
  deriving DecidableEq, Repr

/-- JavaScript `a || dflt` for a nullable string `a`: the default is used
when `a` is null/undefined or the empty string. -/
def jsOrString (v : Option String) (dflt : String) : String :=
  match v with
  | some s => if s == "" then dflt else s
  | none => dflt

/-- Outcome of `collection.insertOne`: the driver either resolves with a
result (whose `insertedId` the code tests for truthiness) or rejects
with an error (e.g. the store is unavailable), which the service's
`try/catch` observes as a thrown exception. -/
inductive InsertOutcome where
  | ok (insertedId : String)
  | okNoId
  | err (msg : String)
  deriving DecidableEq, Repr

namespace GalleryService

/-- `GalleryService.createImage` (cloudinary.ts lines 112–154). The
Cloudinary upload outcome and the MongoDB insert outcome are oracle
inputs; the returned list is the trace of store operations issued, in
order. On an insert result with no `insertedId` the code deletes the
fresh upload and throws; a rejected insert propagates to the `catch`,
which only wraps and rethrows. -/
def createImage (imageData : CreateImageRequest)
    (uploadOutcome : Except String CloudinaryUploadResult)
    (insertOutcome : InsertOutcome) (now : Nat) :
    Except String GalleryImage × List Op :=
  match uploadOutcome with
  | .error e => (.error ("Failed to create image: " ++ e), [])
  | .ok r =>
    let newImage : GalleryImage :=
      { _id := ""
        title := imageData.title
        description := jsOrString imageData.description ""
        cloudinaryId := r.public_id
        cloudinaryUrl := r.secure_url
        publicId := r.public_id
        format := r.format
        width := r.width
        height := r.height
        bytes := r.bytes
        tags := imageData.tags.getD []
        createdAt := now
        updatedAt := now
        isPublic := imageData.isPublic.getD true }
    match insertOutcome with
    | .ok newId =>
        (.ok { newImage with _id := newId }, [Op.mediaUpload r.public_id, Op.recordInsert])
    | .okNoId =>
        (.error "Failed to create image: Failed to create image record in database",
          [Op.mediaUpload r.public_id, Op.recordInsert, Op.mediaDelete r.public_id])
    | .err e =>
        (.error ("Failed to create image: " ++ e),
          [Op.mediaUpload r.public_id, Op.recordInsert])

/-- `GalleryService.getImageById` (cloudinary.ts lines 218–232): a
syntactically invalid id throws (wrapped by the `catch`); otherwise the
`findOne` result (possibly `null`) is returned. -/
def getImageById (db : List GalleryImage) (id : String) :
    Except String (Option GalleryImage) :=
  if !(isValidObjectId id) then
    .error "Failed to retrieve image: Invalid image ID format"
  else
    .ok (db.find? (fun img => img._id == id))

/-- The `$set` document assembly and application of
`GalleryService.updateImage` (cloudinary.ts lines 267–301): `updatedAt`
always, each patch field only when supplied, and the Cloudinary-derived
fields only when a re-upload happened. -/
def applyUpdateObject (existing : GalleryImage)
    (updateData : UpdateImageRequest)
    (cloudinaryResult : Option CloudinaryUploadResult) (now : Nat) :
    GalleryImage :=
  let img := { existing with updatedAt := now }
  let img := match updateData.title with
    | some t => { img with title := t }
    | none => img
  let img := match updateData.description with
    | some d => { img with description := d }
    | none => img
  let img := match updateData.tags with
    | some t => { img with tags := t }
    | none => img
  let img := match updateData.isPublic with
    | some b => { img with isPublic := b }
    | none => img
  match cloudinaryResult with
  | some r =>
      { img with
        cloudinaryUrl := r.secure_url
        format := r.format
        width := r.width
        height := r.height
        bytes := r.bytes }
  | none => img

/-- `GalleryService.updateImage` (cloudinary.ts lines 247–306). With a
file, the Cloudinary adapter's `updateImage` deletes the old asset and
re-uploads under the same public id (cloudinary.ts lines 37–47); its
outcome is an oracle input. -/
def updateImage (db : List GalleryImage) (id : String)
    (updateData : UpdateImageRequest) (file : Option Buffer)
    (uploadOutcome : Except String CloudinaryUploadResult) (now : Nat) :
    Except String GalleryImage × List Op :=
  if !(isValidObjectId id) then
    (.error "Failed to update image: Invalid image ID format", [])
  else
    match db.find? (fun img => img._id == id) with
    | none => (.error "Failed to update image: Image not found", [])
    | some existing =>
      match file with
      | none => (.ok (applyUpdateObject existing updateData none now), [])
      | some _ =>
        match uploadOutcome with
        | .error e =>
            (.error ("Failed to update image: " ++ e),
              [Op.mediaDelete existing.cloudinaryId])
        | .ok r =>
            (.ok (applyUpdateObject existing updateData (some r) now),
              [Op.mediaDelete existing.cloudinaryId,
               Op.mediaUpload existing.cloudinaryId])

/-- `GalleryService.deleteImage` (cloudinary.ts lines 309–333): validate
the id, look the record up (throwing when absent), delete the asset
from Cloudinary first, then `deleteOne` the record; the record store's
reported `deletedCount` is an oracle input (1 in the sequential model). -/
def deleteImage (db : List GalleryImage) (id : String)
    (deleteOneCount : Nat) : Except String Bool × List Op :=
  if !(isValidObjectId id) then
    (.error "Failed to delete image: Invalid image ID format", [])
  else
    match db.find? (fun img => img._id == id) with
    | none => (.error "Failed to delete image: Image not found", [])
    | some existing =>
        (.ok (deleteOneCount == 1),
          [Op.mediaDelete existing.cloudinaryId, Op.recordDelete id])

end GalleryService

/-- The status/flag/message part of a route's JSON response envelope. -/
structure RouteResponse where
  status : Nat
  success : Bool
  message : String
  deriving DecidableEq, Repr

/-- `GET /images/[id]` (the per-id route file): 400 on a missing id
segment, 500 when the service throws, 404 when it resolves with `null`,
200 otherwise. -/
def getImageByIdRoute (db : List GalleryImage) (id : String) :
    RouteResponse :=
  if id == "" then ⟨400, false, "Image ID is required"⟩
  else
    match GalleryService.getImageById db id with
    | .error _ => ⟨500, false, "Failed to retrieve image"⟩
    | .ok none => ⟨404, false, "Image not found"⟩
    | .ok (some _) => ⟨200, true, "Image retrieved successfully"⟩

/-- `DELETE /images/[id]` (the per-id route file, lines 180–225): 400 on
a missing id segment, 500 when the service throws, 404 when the service
resolves with `false`, 200 when it resolves with `true`. -/
def deleteImageRoute (db : List GalleryImage) (id : String)
    (deleteOneCount : Nat) : RouteResponse × List Op :=
  if id == "" then (⟨400, false, "Image ID is required"⟩, [])
  else
    match GalleryService.deleteImage db id deleteOneCount with
    | (.error _, ops) => (⟨500, false, "Failed to delete image"⟩, ops)
    | (.ok true, ops) => (⟨200, true, "Image deleted successfully"⟩, ops)
    | (.ok false, ops) => (⟨404, false, "Image not found"⟩, ops)

/-- A value in a MongoDB sort document: a numeric direction (1 or -1) or
the textScore relevance marker. -/
inductive SortVal where
  | num (n : Int)
  | metaTextScore
  deriving DecidableEq, Repr

/-- JavaScript property assignment `obj[k] = v` on an object modelled as
an insertion-ordered association list: overwrite in place if the key
exists, else append. -/
def objSet (obj : List (String × SortVal)) (k : String) (v : SortVal) :
    List (String × SortVal) :=
  if obj.any (fun p => p.1 == k) then
    obj.map (fun p => if p.1 == k then (k, v) else p)
  else obj ++ [(k, v)]

namespace GalleryService

/-- The sort document `GalleryService.searchImages` builds (cloudinary.ts
lines 340–347 and 361–365): it starts from the textScore entry and then
assigns the requested field when `sortBy` is truthy. The defaults
`createdAt` / `desc` come from the destructuring of the query. -/
def buildSearchSort (sortBy sortOrder : Option String) :
    List (String × SortVal) :=
  let sb := sortBy.getD "createdAt"
  let so := sortOrder.getD "desc"
  let sort := [("score", SortVal.metaTextScore)]
  if sb == "" then sort
  else objSet sort sb (SortVal.num (if so == "asc" then 1 else -1))

end GalleryService

/-- Raw query parameters of a `GET /images` request: each is
`searchParams.get(...)`, i.e. `null` or a string. -/
structure RawParams where
  page : Option String
  limit : Option String
  sortBy : Option String
  sortOrder : Option String
  tags : Option String
  isPublic : Option String
  search : Option String
  deriving DecidableEq, Repr

/-- Digit run to number, as `parseInt` accumulates base-10 digits. -/
def digitsToNat (ds : List Char) : Nat :=
  ds.foldl (fun a c => a * 10 + (c.toNat - '0'.toNat)) 0

/-- JavaScript `parseInt(s)` for base-10 inputs: skip leading
whitespace, read an optional sign and the longest digit run; `none`
models `NaN` (no digits). Radix prefixes are not modelled. -/
def parseIntJs (s : String) : Option Int :=
  let cs := s.data.dropWhile (fun c => c.isWhitespace)
  let signed : Bool × List Char :=
    match cs with
    | '-' :: rest => (true, rest)
    | '+' :: rest => (false, rest)
    | _ => (false, cs)
  let ds := signed.2.takeWhile (fun c => c.isDigit)
  if ds.isEmpty then none
  else if signed.1 then some (-(digitsToNat ds : Int))
  else some ((digitsToNat ds : Int))

/-- JavaScript `<` on a number that may be `NaN` (modelled `none`):
every comparison with `NaN` is false. -/
def jsLt (a : Option Int) (b : Int) : Bool :=
  match a with
  | none => false
  | some v => decide (v < b)

/-- JavaScript `>` on a number that may be `NaN`. -/
def jsGt (a : Option Int) (b : Int) : Bool :=
  match a with
  | none => false
  | some v => decide (v > b)

/-- The `PaginationQuery` the route hands to the service; `none` in
`page`/`limit` models `NaN`. -/
structure PaginationQueryM where
  page : Option Int
  limit : Option Int
  sortBy : String
  sortOrder : String
  tags : Option String
  isPublic : Option Bool
  deriving DecidableEq, Repr

/-- The query object assembled at route.ts lines 10–17. The `page` and
`limit` defaults come from the JS `||` on the raw parameter, so a null
or empty-string parameter falls back to `"1"` / `"20"` before parsing. -/
def buildQuery (p : RawParams) : PaginationQueryM :=
  { page := parseIntJs (jsOrString p.page "1")
    limit := parseIntJs (jsOrString p.limit "20")
    sortBy := jsOrString p.sortBy "createdAt"
    sortOrder := jsOrString p.sortOrder "desc"
    tags := match p.tags with
      | some s => if s == "" then none else some s
      | none => none
    isPublic := match p.isPublic with
      | some s => if s == "" then none else some (s == "true")
      | none => none }

/-- `searchParams.get('search')` with the truthiness test of
route.ts line 42. -/
def searchTermOf (p : RawParams) : Option String :=
  match p.search with
  | some s => if s == "" then none else some s
  | none => none

/-- What `GET /images` does after parsing: reject with 400, or call
`searchImages`/`getImages` (the latter when the search term is `none`). -/
inductive GetImagesResult where
  | badRequest (message : String)
  | serviceCall (searchTerm : Option String) (query : PaginationQueryM)
  deriving DecidableEq, Repr

/-- `GET /images` (route.ts lines 5–50): build the query, check
`page < 1`, then `limit < 1 || limit > 100`, then delegate. -/
def getImagesRoute (p : RawParams) : GetImagesResult :=
  let query := buildQuery p
  if jsLt query.page 1 then .badRequest "Invalid page number"
  else if jsLt query.limit 1 || jsGt query.limit 100 then
    .badRequest "Invalid limit"
  else .serviceCall (searchTermOf p) query

/-- The fields of a multipart `File` the upload route reads. -/
structure FileData where
  fileType : String
  size : Nat
  deriving DecidableEq, Repr

/-- The multipart form of `POST /images/upload`: each `formData.get` is
`null` or a value. -/
structure UploadForm where
  file : Option FileData
  title : Option String
  description : Option String
  tags : Option String
  isPublic : Option String
  deriving DecidableEq, Repr

/-- JavaScript `String.prototype.trim`: strip whitespace from both
ends (computed on the character list so the kernel can evaluate it). -/
def jsTrim (s : String) : String :=
  ⟨((s.data.dropWhile Char.isWhitespace).reverse.dropWhile
      Char.isWhitespace).reverse⟩

/-- JavaScript `String.prototype.startsWith` (computed on the character
list so the kernel can evaluate it). -/
def strStartsWith (s pre : String) : Bool :=
  pre.data.isPrefixOf s.data

/-- `tags.split(',').map(tag => tag.trim()).filter(tag => tag.length > 0)`. -/
def splitTrimFilter (tags : String) : List String :=
  ((tags.splitOn ",").map (fun t => jsTrim t)).filter (fun t => t.length > 0)

/-- What `POST /images/upload` does after validation: reject with 400,
or call `createImage` with the assembled image data. -/
inductive UploadResult where
  | badRequest (message : String)
  | createCall (imageData : CreateImageRequest)
  deriving DecidableEq, Repr

/-- `POST /images/upload` (the upload route file, lines 5–67): require a
file, require a truthy title (absent or empty-string titles are
rejected; whitespace titles pass), check the MIME type starts with
`image/` and the size is at most 10MB, then delegate with the trimmed
fields. -/
def postUploadRoute (f : UploadForm) : UploadResult :=
  match f.file with
  | none => .badRequest "No file provided"
  | some file =>
    match f.title with
    | none => .badRequest "Title is required"
    | some title =>
      if title == "" then .badRequest "Title is required"
      else if !(strStartsWith file.fileType "image/") then
        .badRequest "Invalid file type"
      else if file.size > 10 * 1024 * 1024 then .badRequest "File too large"
      else
        .createCall
          { title := jsTrim title
            description := some (match f.description with
              | some d => jsOrString (some (jsTrim d)) ""
              | none => "")
            tags := some (match f.tags with
              | some t => if t == "" then [] else splitTrimFilter t
              | none => [])
            isPublic := some (match f.isPublic with
              | some s => s == "true" || s == "1" || s == "on"
              | none => false) }

/-- A concrete image document used by witness theorems. Its `_id` is a
well-formed 24-hex-character ObjectId string. -/
def sampleImage : GalleryImage :=
  { _id := "507f1f77bcf86cd799439011"
    title := "Sunset"
    description := "A sunset"
    cloudinaryId := "gallery/abc123"
    cloudinaryUrl := "https://res.cloudinary.example/gallery/abc123.jpg"
    publicId := "gallery/abc123"
    format := "jpg"
    width := 800
    height := 600
    bytes := 12345
    tags := ["nature", "sky"]
    createdAt := 100
    updatedAt := 100
    isPublic := true }

/-- Image data used by the C4 counterexample. -/
def cexCreateData : CreateImageRequest :=
  { title := "Sunset", description := some "", tags := some ["nature"],
    isPublic := some true }

/-- Cloudinary upload result used by the C4 counterexample. -/
def cexUploadResult : CloudinaryUploadResult :=
  { public_id := "gallery/abc123"
    secure_url := "https://res.cloudinary.example/gallery/abc123.jpg"
    format := "jpg", width := 800, height := 600, bytes := 12345 }

/-- Raw parameters of the request `GET /images?page=0`. -/
def pageZeroParams : RawParams :=
  { page := some "0", limit := none, sortBy := none, sortOrder := none,
    tags := none, isPublic := none, search := none }

/-- Raw parameters of a request with non-numeric `page` and `limit`. -/
def nanParams : RawParams :=
  { page := some "abc", limit := some "xyz", sortBy := none,
    sortOrder := none, tags := none, isPublic := none, search := none }

/-- The upload form of C10: a valid small image file and a title that is
a single space. -/
def whitespaceTitleForm : UploadForm :=
  { file := some { fileType := "image/png", size := 4 }
    title := some " "
    description := none
    tags := none
    isPublic := none }

end CloudGallery

namespace CloudGallery

theorem mem_jsDedup {α : Type} [DecidableEq α] (a : α) (l : List α) :
    a ∈ jsDedup l ↔ a ∈ l := by
  induction l with
  | nil => simp [jsDedup]
  | cons b l ih =>
    by_cases hab : a = b
    · subst hab; simp [jsDedup]
    · simp [jsDedup, List.mem_filter, hab, ih]

theorem nodup_jsDedup {α : Type} [DecidableEq α] (l : List α) :
    (jsDedup l).Nodup := by
  induction l with
  | nil => simp [jsDedup]
  | cons b l ih =>
    refine List.Nodup.cons ?_ (ih.filter _)
    intro hmem
    rcases List.mem_filter.mp hmem with ⟨-, hne⟩
    simp at hne

theorem toFinset_jsDedup {α : Type} [DecidableEq α] (l : List α) :
    (jsDedup l).toFinset = l.toFinset := by
  ext a
  simp [List.mem_toFinset, mem_jsDedup]


/-- C1: `syncWithCloudinary` emits exactly one discrepancy per element of
the symmetric difference of the two id sets — its discrepancy count is
`|recordSet \ assetSet| + |assetSet \ recordSet|` — and `inSync` holds
iff the discrepancy list is empty. -/
theorem sync_symmetric_difference (mongoImages cloudinaryResources : List String) :
    (GalleryService.syncWithCloudinary mongoImages cloudinaryResources).discrepancies.length
      = (mongoImages.toFinset \ cloudinaryResources.toFinset).card
        + (cloudinaryResources.toFinset \ mongoImages.toFinset).card
    ∧ ((GalleryService.syncWithCloudinary mongoImages cloudinaryResources).inSync = true
        ↔ (GalleryService.syncWithCloudinary mongoImages cloudinaryResources).discrepancies = []) := by
  constructor
  · simp only [GalleryService.syncWithCloudinary]
    rw [List.length_append, List.length_map, List.length_map]
    congr 1
    · rw [← List.toFinset_card_of_nodup ((nodup_jsDedup _).filter _),
        List.toFinset_filter]
      congr 1
      ext a
      simp [List.mem_toFinset, mem_jsDedup, Finset.mem_sdiff, List.contains]
    · rw [← List.toFinset_card_of_nodup ((nodup_jsDedup _).filter _),
        List.toFinset_filter]
      congr 1
      ext a
      simp [List.mem_toFinset, mem_jsDedup, Finset.mem_sdiff, List.contains]
  · simp only [GalleryService.syncWithCloudinary]
    simp [List.length_eq_zero]

/-- C2: for validated paging inputs (positive limit), the pagination
metadata built by `getImages`/`searchImages` satisfies
`totalPages = ceil(totalItems / limit)`, `hasNextPage ↔ page < totalPages`
and `hasPrevPage ↔ page > 1`. -/
theorem pagination_spec (totalItems limit page : Nat) (hL : 0 < limit) :
    (buildPagination page limit totalItems).totalPages
        = Nat.ceil ((totalItems : ℚ) / (limit : ℚ))
    ∧ ((buildPagination page limit totalItems).hasNextPage = true
        ↔ page < (buildPagination page limit totalItems).totalPages)
    ∧ ((buildPagination page limit totalItems).hasPrevPage = true ↔ page > 1) := by
  refine ⟨?_, ?_, ?_⟩
  · simp [buildPagination, mathCeilDiv, Int.ceil_toNat]
  · simp [buildPagination]
  · simp [buildPagination]

/-- Witness for C2 at `totalItems = 45`, `limit = 20`, `page = 2`:
`totalPages = ⌈45/20⌉ = 3`, `hasNextPage` (2 < 3), `hasPrevPage` (2 > 1). -/
theorem pagination_spec_witness :
    0 < 20
    ∧ ((buildPagination 2 20 45).totalPages = Nat.ceil ((45 : ℚ) / (20 : ℚ))
      ∧ ((buildPagination 2 20 45).hasNextPage = true
          ↔ 2 < (buildPagination 2 20 45).totalPages)
      ∧ ((buildPagination 2 20 45).hasPrevPage = true ↔ 2 > 1)) :=
  ⟨by decide, pagination_spec 45 20 2 (by decide)⟩

/-- C3 (evidence): on an empty collection, `DELETE /images/[id]` with a
well-formed but nonexistent id answers 500 (the service throws
`Image not found`, which the route maps to 500), not the 404 the
specification states; `GET /images/[id]` with a malformed id answers
500 too, and only the well-formed-nonexistent `GET` answers 404. -/
theorem delete_nonexistent_id_returns_500 :
    (deleteImageRoute [] "507f1f77bcf86cd799439011" 0).1.status = 500
    ∧ (deleteImageRoute [] "507f1f77bcf86cd799439011" 0).1.message
        = "Failed to delete image"
    ∧ (getImageByIdRoute [] "zzz").status = 500
    ∧ (getImageByIdRoute [] "507f1f77bcf86cd799439011").status = 404 := by
  decide

/-- C4 (counterexample): an execution where the upload succeeds and the
insert fails by rejecting (store unavailable). The create operation
fails with the propagated error, yet its trace contains no delete of
the just-uploaded asset — the compensation the claim requires for every
failed insert does not happen on this path. -/
theorem create_insert_reject_no_compensation :
    (GalleryService.createImage cexCreateData (Except.ok cexUploadResult)
        (InsertOutcome.err "store unavailable") 0).1
      = Except.error "Failed to create image: store unavailable"
    ∧ (GalleryService.createImage cexCreateData (Except.ok cexUploadResult)
        (InsertOutcome.err "store unavailable") 0).2
      = [Op.mediaUpload "gallery/abc123", Op.recordInsert]
    ∧ Op.mediaDelete "gallery/abc123"
        ∉ (GalleryService.createImage cexCreateData (Except.ok cexUploadResult)
            (InsertOutcome.err "store unavailable") 0).2 :=
  ⟨rfl, rfl, by decide⟩

/-- C4 (amended): after a successful upload, the just-uploaded asset is
deleted before the create fails exactly when the insert completes
without rejecting but reports no `insertedId`; an insert that rejects
propagates as an error with no compensating delete in the trace. -/
theorem create_compensation_amended (imageData : CreateImageRequest)
    (r : CloudinaryUploadResult) (now : Nat) :
    ((GalleryService.createImage imageData (Except.ok r)
          InsertOutcome.okNoId now).1
        = Except.error
            "Failed to create image: Failed to create image record in database"
      ∧ (GalleryService.createImage imageData (Except.ok r)
          InsertOutcome.okNoId now).2
        = [Op.mediaUpload r.public_id, Op.recordInsert,
           Op.mediaDelete r.public_id])
    ∧ ∀ msg : String,
        (GalleryService.createImage imageData (Except.ok r)
            (InsertOutcome.err msg) now).1
          = Except.error ("Failed to create image: " ++ msg)
        ∧ Op.mediaDelete r.public_id
            ∉ (GalleryService.createImage imageData (Except.ok r)
                (InsertOutcome.err msg) now).2 := by
  refine ⟨⟨rfl, rfl⟩, fun msg => ⟨rfl, ?_⟩⟩
  simp [GalleryService.createImage]

/-- C5 (counterexample): at the request `sortBy = createdAt`,
`sortOrder = desc`, the first (primary) key of the sort document
`searchImages` builds is not the requested field — so the requested
field is not the primary sort key. -/
theorem search_sort_primary_not_requested_field :
    ¬ ((GalleryService.buildSearchSort (some "createdAt")
          (some "desc")).head?
        = some ("createdAt", SortVal.num (-1))) := by
  decide

/-- C5 (amended): for every requested sort field (truthy and distinct
from the reserved `score` key), the sort document of `searchImages` has
the textScore relevance as primary key and the requested field with its
requested direction as secondary key. -/
theorem search_sort_relevance_primary (sb so : String)
    (hne : sb ≠ "") (hscore : sb ≠ "score") :
    GalleryService.buildSearchSort (some sb) (some so)
      = [("score", SortVal.metaTextScore),
         (sb, SortVal.num (if so == "asc" then 1 else -1))] := by
  have h1 : (sb == "") = false := beq_eq_false_iff_ne.mpr hne
  have h2 : ("score" == sb) = false := beq_eq_false_iff_ne.mpr (Ne.symm hscore)
  simp [GalleryService.buildSearchSort, objSet, h1, h2]

/-- Witness for the amended C5 at `sortBy = createdAt`,
`sortOrder = desc`. -/
theorem search_sort_relevance_primary_witness :
    ("createdAt" : String) ≠ ""
    ∧ ("createdAt" : String) ≠ "score"
    ∧ GalleryService.buildSearchSort (some "createdAt") (some "desc")
      = [("score", SortVal.metaTextScore),
         ("createdAt", SortVal.num (if "desc" == "asc" then 1 else -1))] :=
  ⟨by decide, by decide,
    search_sort_relevance_primary "createdAt" "desc" (by decide) (by decide)⟩

/-- Helper for C6: whatever the patch and the optional Cloudinary
result, the updated document's `updatedAt` is the refresh instant. -/
theorem applyUpdateObject_updatedAt (e : GalleryImage)
    (u : UpdateImageRequest) (c : Option CloudinaryUploadResult)
    (now : Nat) : (GalleryService.applyUpdateObject e u c now).updatedAt = now := by
  rcases u with ⟨t, d, tg, pb⟩
  cases t <;> cases d <;> cases tg <;> cases pb <;> cases c <;> rfl

/-- C6: an update with no new file and a tags-only patch returns the
existing document with only `tags` and `updatedAt` changed —
`cloudinaryUrl`, `format`, `width`, `height` and the remaining fields
are untouched — and in general every no-file update leaves unpatched
fields untouched while always refreshing `updatedAt`. -/
theorem update_tags_only_frame (db : List GalleryImage) (id : String)
    (existing : GalleryImage) (tags : List String)
    (uploadOutcome : Except String CloudinaryUploadResult) (now : Nat)
    (hvalid : isValidObjectId id = true)
    (hfind : db.find? (fun img => img._id == id) = some existing) :
    GalleryService.updateImage db id
        ⟨none, none, some tags, none⟩ none uploadOutcome now
      = (Except.ok { existing with tags := tags, updatedAt := now }, [])
    ∧ ∀ patch : UpdateImageRequest,
        (GalleryService.updateImage db id patch none uploadOutcome now).1
          = Except.ok (GalleryService.applyUpdateObject existing patch none now)
        ∧ (GalleryService.applyUpdateObject existing patch none now).updatedAt = now := by
  constructor
  · simp [GalleryService.updateImage, hvalid, hfind, GalleryService.applyUpdateObject]
  · intro patch
    refine ⟨?_, applyUpdateObject_updatedAt existing patch none now⟩
    simp [GalleryService.updateImage, hvalid, hfind]

/-- Witness for C6: a tags-only patch on a one-document collection. -/
theorem update_tags_only_frame_witness :
    isValidObjectId "507f1f77bcf86cd799439011" = true
    ∧ [sampleImage].find? (fun img => img._id == "507f1f77bcf86cd799439011")
        = some sampleImage
    ∧ (GalleryService.updateImage [sampleImage] "507f1f77bcf86cd799439011"
          ⟨none, none, some ["city"], none⟩ none (Except.error "unused") 200
        = (Except.ok { sampleImage with tags := ["city"], updatedAt := 200 }, [])
      ∧ ∀ patch : UpdateImageRequest,
          (GalleryService.updateImage [sampleImage] "507f1f77bcf86cd799439011"
              patch none (Except.error "unused") 200).1
            = Except.ok (GalleryService.applyUpdateObject sampleImage patch none 200)
          ∧ (GalleryService.applyUpdateObject sampleImage patch none 200).updatedAt = 200) :=
  ⟨by decide, by decide,
    update_tags_only_frame [sampleImage] "507f1f77bcf86cd799439011"
      sampleImage ["city"] (Except.error "unused") 200 (by decide) (by decide)⟩

/-- C7: deleting an existing record issues the Cloudinary asset delete
before the MongoDB record delete, and resolves with `true` exactly when
the record delete removed one document. -/
theorem delete_asset_first_and_result (db : List GalleryImage)
    (id : String) (existing : GalleryImage) (deleteOneCount : Nat)
    (hvalid : isValidObjectId id = true)
    (hfind : db.find? (fun img => img._id == id) = some existing) :
    (GalleryService.deleteImage db id deleteOneCount).2
      = [Op.mediaDelete existing.cloudinaryId, Op.recordDelete id]
    ∧ ((GalleryService.deleteImage db id deleteOneCount).1 = Except.ok true
        ↔ deleteOneCount = 1) := by
  constructor
  · simp [GalleryService.deleteImage, hvalid, hfind]
  · simp [GalleryService.deleteImage, hvalid, hfind]

/-- Witness for C7 on a one-document collection with `deletedCount = 1`. -/
theorem delete_asset_first_and_result_witness :
    isValidObjectId "507f1f77bcf86cd799439011" = true
    ∧ [sampleImage].find? (fun img => img._id == "507f1f77bcf86cd799439011")
        = some sampleImage
    ∧ ((GalleryService.deleteImage [sampleImage] "507f1f77bcf86cd799439011" 1).2
        = [Op.mediaDelete sampleImage.cloudinaryId,
           Op.recordDelete "507f1f77bcf86cd799439011"]
      ∧ ((GalleryService.deleteImage [sampleImage] "507f1f77bcf86cd799439011" 1).1
            = Except.ok true ↔ 1 = 1)) :=
  ⟨by decide, by decide,
    delete_asset_first_and_result [sampleImage] "507f1f77bcf86cd799439011"
      sampleImage 1 (by decide) (by decide)⟩

/-- C8: when the parsed `page` is below 1, or the parsed `limit` is
below 1 or above 100, `GET /images` answers with a 400 validation
response and never reaches the service; a bad page reports
`Invalid page number`. -/
theorem get_images_rejects_bad_paging (p : RawParams) (pv lv : Int)
    (hp : parseIntJs (jsOrString p.page "1") = some pv)
    (hl : parseIntJs (jsOrString p.limit "20") = some lv)
    (hbad : pv < 1 ∨ lv < 1 ∨ 100 < lv) :
    (getImagesRoute p = GetImagesResult.badRequest "Invalid page number"
      ∨ getImagesRoute p = GetImagesResult.badRequest "Invalid limit")
    ∧ (pv < 1 →
        getImagesRoute p = GetImagesResult.badRequest "Invalid page number") := by
  by_cases h1 : pv < 1
  · have hres : getImagesRoute p = GetImagesResult.badRequest "Invalid page number" := by
      simp [getImagesRoute, buildQuery, jsLt, hp, h1]
    exact ⟨Or.inl hres, fun _ => hres⟩
  · have h2 : lv < 1 ∨ 100 < lv := by
      rcases hbad with h | h | h
      · exact absurd h h1
      · exact Or.inl h
      · exact Or.inr h
    have hres : getImagesRoute p = GetImagesResult.badRequest "Invalid limit" := by
      rcases h2 with h2 | h2 <;>
        simp [getImagesRoute, buildQuery, jsLt, jsGt, hp, hl, h1, h2]
    exact ⟨Or.inr hres, fun hcon => absurd hcon h1⟩

/-- Witness for C8 at the request `GET /images?page=0`. -/
theorem get_images_rejects_bad_paging_witness :
    parseIntJs (jsOrString pageZeroParams.page "1") = some 0
    ∧ parseIntJs (jsOrString pageZeroParams.limit "20") = some 20
    ∧ ((0 : Int) < 1 ∨ (20 : Int) < 1 ∨ (100 : Int) < 20)
    ∧ ((getImagesRoute pageZeroParams
          = GetImagesResult.badRequest "Invalid page number"
        ∨ getImagesRoute pageZeroParams
          = GetImagesResult.badRequest "Invalid limit")
      ∧ ((0 : Int) < 1 →
          getImagesRoute pageZeroParams
            = GetImagesResult.badRequest "Invalid page number")) :=
  ⟨by decide, by decide, by decide,
    get_images_rejects_bad_paging pageZeroParams 0 20
      (by decide) (by decide) (by decide)⟩

/-- C9: a non-numeric `page` or `limit` parses to `NaN` (modelled
`none`), every bounds comparison against `NaN` is false, so no 400 is
produced and the request is delegated to the service carrying the `NaN`
paging values. The other parameter is assumed not to fail its own
bounds check on its own. -/
theorem get_images_nan_delegated (p : RawParams)
    (hp : parseIntJs (jsOrString p.page "1") = none
        ∨ ∃ v : Int, parseIntJs (jsOrString p.page "1") = some v ∧ 1 ≤ v)
    (hl : parseIntJs (jsOrString p.limit "20") = none
        ∨ ∃ v : Int, parseIntJs (jsOrString p.limit "20") = some v
            ∧ 1 ≤ v ∧ v ≤ 100)
    (hnan : parseIntJs (jsOrString p.page "1") = none
        ∨ parseIntJs (jsOrString p.limit "20") = none) :
    getImagesRoute p
      = GetImagesResult.serviceCall (searchTermOf p) (buildQuery p)
    ∧ (parseIntJs (jsOrString p.page "1") = none → (buildQuery p).page = none)
    ∧ (parseIntJs (jsOrString p.limit "20") = none →
        (buildQuery p).limit = none) := by
  have hpageF : jsLt (buildQuery p).page 1 = false := by
    rcases hp with h | ⟨v, hv, hge⟩
    · simp [buildQuery, jsLt, h]
    · have hnlt : ¬ (v < 1) := by omega
      simp [buildQuery, jsLt, hv, hnlt]
  have hlimF : (jsLt (buildQuery p).limit 1
      || jsGt (buildQuery p).limit 100) = false := by
    rcases hl with h | ⟨v, hv, hge, hle⟩
    · simp [buildQuery, jsLt, jsGt, h]
    · have hnlt : ¬ (v < 1) := by omega
      have hngt : ¬ (v > 100) := by omega
      simp [buildQuery, jsLt, jsGt, hv, hnlt, hngt]
  refine ⟨?_, fun h => by simp [buildQuery, h], fun h => by simp [buildQuery, h]⟩
  simp only [getImagesRoute]
  rw [hpageF, hlimF]
  simp

/-- Witness for C9 at `GET /images?page=abc&limit=xyz`. -/
theorem get_images_nan_delegated_witness :
    (parseIntJs (jsOrString nanParams.page "1") = none
      ∨ ∃ v : Int, parseIntJs (jsOrString nanParams.page "1") = some v ∧ 1 ≤ v)
    ∧ (parseIntJs (jsOrString nanParams.limit "20") = none
      ∨ ∃ v : Int, parseIntJs (jsOrString nanParams.limit "20") = some v
          ∧ 1 ≤ v ∧ v ≤ 100)
    ∧ (parseIntJs (jsOrString nanParams.page "1") = none
      ∨ parseIntJs (jsOrString nanParams.limit "20") = none)
    ∧ (getImagesRoute nanParams
        = GetImagesResult.serviceCall (searchTermOf nanParams)
            (buildQuery nanParams)
      ∧ (parseIntJs (jsOrString nanParams.page "1") = none →
          (buildQuery nanParams).page = none)
      ∧ (parseIntJs (jsOrString nanParams.limit "20") = none →
          (buildQuery nanParams).limit = none)) :=
  ⟨Or.inl (by decide), Or.inl (by decide), Or.inl (by decide),
    get_images_nan_delegated nanParams (Or.inl (by decide))
      (Or.inl (by decide)) (Or.inl (by decide))⟩

/-- C10: a whitespace-only title passes the upload route's title check
(only null or empty-string titles are rejected), the route delegates
with the trimmed — hence empty — title, and the record the service
creates carries the empty string as its title. -/
theorem upload_whitespace_title_accepted :
    postUploadRoute whitespaceTitleForm
      = UploadResult.createCall
          { title := "", description := some "", tags := some [],
            isPublic := some false }
    ∧ ∀ (r : CloudinaryUploadResult) (newId : String) (now : Nat),
        ((GalleryService.createImage
            { title := "", description := some "", tags := some [],
              isPublic := some false }
            (Except.ok r) (InsertOutcome.ok newId) now).1.map
          (fun img => img.title)) = Except.ok "" :=
  ⟨by decide, fun r newId now => rfl⟩

end CloudGallery
